import Mathlib

/-!
Verification of the client-side predictive simulation engine of the
MoneyAgar.io repository.  The repository contains two evolving copies of the
engine:

* `frontend/src/components/GameCanvas.js` — the networked copy, which talks
  to the remote game API (`gameAPI.getGameState`, `updatePosition`,
  `consumeFood`, `consumePowerUp`).  Embedded below in namespace `Agar.GC`.
* an earlier mock-data copy of `GameCanvas.js` (kept in the repository) that
  runs the whole world locally.  Embedded below in namespace `Agar.Mock`.

JavaScript numbers are modelled as real numbers; `Math.sqrt` is `Real.sqrt`,
`Math.floor` is `Int.floor`, and `Math.max`/`Math.min` are `max`/`min`.
React `setX(prev => …)` functional updates inside one pass are modelled by
composing the updates in program order on an explicit state value.
-/

namespace Agar

/-- Food pellet as delivered by the server / mock generator:
`{ id, x, y, color, value }` (color is cosmetic and omitted). -/
structure Food where
  id : ℕ
  x : ℝ
  y : ℝ
  value : ℝ

/-- Power-up pellet: `{ id, x, y, type, color, size, value }` plus the
`duration` field that the client attaches on consumption
(`{ ...p, duration: 10000 }`).  Type and color are cosmetic and omitted. -/
structure PowerUp where
  id : ℕ
  x : ℝ
  y : ℝ
  size : ℝ
  value : ℝ
  duration : ℝ

/-- A remote player as stored in `gameState.otherPlayers` and in the pulled
snapshot's `players` list (contracts.md: `{ playerId, x, y, money, score,
kills, isAlive }`; name/color cosmetic and omitted). -/
structure OtherPlayer where
  playerId : ℕ
  x : ℝ
  y : ℝ
  money : ℝ
  isAlive : Bool

/-- Direction unit vector `player.direction = { x, y }`. -/
structure Dir where
  x : ℝ
  y : ℝ

/-- The local player record (the `player` prop threaded through
`GameCanvas.js`): identity, position, the money/virtualMoney/score scalars,
kill count, alive flag, direction vector (possibly not yet set), and the
list of collected power-up effects. -/
structure Player where
  id : ℕ
  x : ℝ
  y : ℝ
  money : ℝ
  virtualMoney : ℝ
  score : ℝ
  kills : ℕ
  isAlive : Bool
  direction : Option Dir
  powerUps : List PowerUp

/-- The `gameStats` record of the pulled snapshot (population / resource
counts; only read by the UI sidebar). -/
structure GameStats where
  playersOnline : ℕ
  foodItems : ℕ

/-- The client's working world state (`gameState`): food set, power-up set,
remote-player set and the last received stats record. -/
structure GameState where
  food : List Food
  powerUps : List PowerUp
  otherPlayers : List OtherPlayer
  gameStats : GameStats

/-- The body of the world snapshot returned by `gameAPI.getGameState`.
Each component may be absent from the response (`serverGameState.food || []`
in the source), hence the `Option`s. -/
structure ServerState where
  food : Option (List Food)
  players : Option (List OtherPlayer)
  powerUps : Option (List PowerUp)
  gameStats : Option GameStats

/-- Euclidean distance as computed in every collision test of the source:
`Math.sqrt(dx * dx + dy * dy)`. -/
noncomputable def distance (x1 y1 x2 y2 : ℝ) : ℝ :=
  Real.sqrt ((x1 - x2) * (x1 - x2) + (y1 - y2) * (y1 - y2))

/-! ## The networked engine copy (`frontend/src/components/GameCanvas.js`) -/

namespace GC

/-- `const CANVAS_WIDTH = 800`. -/
def CANVAS_WIDTH : ℝ := 800

/-- `const CANVAS_HEIGHT = 600`. -/
def CANVAS_HEIGHT : ℝ := 600

/-- `const MOVE_SPEED = 4` (the "Increased base speed"). -/
def MOVE_SPEED : ℝ := 4

/-- `const MIN_SIZE = 12` (the "Slightly larger min size"). -/
def MIN_SIZE : ℝ := 12

/-- `const FOOD_SIZE = 4`. -/
def FOOD_SIZE : ℝ := 4

/-- `const POSITION_UPDATE_INTERVAL = 50`. -/
def POSITION_UPDATE_INTERVAL : ℝ := 50

/-- `calculateSize(money) = MIN_SIZE + Math.sqrt(money / 10)`. -/
noncomputable def calculateSize (money : ℝ) : ℝ :=
  MIN_SIZE + Real.sqrt (money / 10)

/-- The dynamic speed computed each frame in `gameLoop`:
`Math.max(MOVE_SPEED - size * 0.03, 2)`. -/
noncomputable def speed (size : ℝ) : ℝ :=
  max (MOVE_SPEED - size * 0.03) 2

/-- One step of the food scan of `checkCollisions`: on overlap
(`distance < playerSize + FOOD_SIZE`) accumulate `pointsEarned += food.value`
and `consumedFoodIds.push(food.id)`.  The accumulator is
`(pointsEarned, consumedFoodIds)`; the tests use the player captured at the
start of the pass (`ps`, `px`, `py`). -/
noncomputable def foodScanStep (ps px py : ℝ) (acc : ℝ × List ℕ) (f : Food) :
    ℝ × List ℕ :=
  if distance px py f.x f.y < ps + FOOD_SIZE then
    (acc.1 + f.value, acc.2 ++ [f.id])
  else acc

/-- One step of the power-up scan of `checkCollisions`
(`distance < playerSize + powerUp.size`). -/
noncomputable def powerUpScanStep (ps px py : ℝ) (acc : ℝ × List ℕ) (u : PowerUp) :
    ℝ × List ℕ :=
  if distance px py u.x u.y < ps + u.size then
    (acc.1 + u.value, acc.2 ++ [u.id])
  else acc

/-- The `setPlayer` issued on a successful `consumePowerUp` call: append the
returned `consumedPowerUps`, each given `duration: 10000`, to
`player.powerUps`.  The call is only made when `consumedPowerUpIds` is
nonempty; on a rejected promise (`catch`) nothing happens; a response without
a `consumedPowerUps` field (`Option.none`) also applies nothing. -/
def applyPowerUpAck (p : Player) (ids : List ℕ)
    (ack : Except Unit (Option (List PowerUp))) : Player :=
  if ids ≠ [] then
    match ack with
    | Except.ok (some l) =>
        { p with powerUps := p.powerUps ++ l.map (fun u => { u with duration := 10000 }) }
    | Except.ok none => p
    | Except.error _ => p
  else p

/-- The single local stats update of `checkCollisions`: only when
`pointsEarned > 0`, add it at once to `virtualMoney`, `money` and `score`. -/
noncomputable def applyPoints (p : Player) (pts : ℝ) : Player :=
  if pts > 0 then
    { p with
      virtualMoney := p.virtualMoney + pts,
      money := p.money + pts,
      score := p.score + pts }
  else p

/-- One step of the remote-player loop of `checkCollisions`.  `ps`, `px`,
`py` are the player size and position captured at the start of the pass; the
evolving `p` receives the queued `setPlayer` updates.  On overlap: if
`playerSize > otherSize * 1.2` the player eats the other and gains
`Math.floor(otherPlayer.money * 0.8)`; else if `otherSize > playerSize * 1.2`
the player is marked not alive; otherwise nothing happens. -/
noncomputable def resolveOther (ps px py : ℝ) (p : Player) (o : OtherPlayer) :
    Player :=
  let otherSize := calculateSize o.money
  if distance px py o.x o.y < ps + otherSize then
    if ps > otherSize * 1.2 then
      let earnedMoney : ℝ := ((Int.floor (o.money * 0.8) : ℤ) : ℝ)
      { p with
        virtualMoney := p.virtualMoney + earnedMoney,
        money := p.money + earnedMoney,
        score := p.score + earnedMoney,
        kills := p.kills + 1 }
    else if otherSize > ps * 1.2 then
      { p with isAlive := false }
    else p
  else p

/-- The outcome of one `checkCollisions` pass: the sequence of `setPlayer`
updates applied to the local player, the (unmodified) `gameState`, and the
consumed-id lists sent to the server. -/
structure CollisionResult where
  player : Player
  gameState : GameState
  consumedFoodIds : List ℕ
  consumedPowerUpIds : List ℕ

/-- `checkCollisions` of the networked copy.  In program order: scan the
food set, scan the power-up set (accumulating `pointsEarned` and the
consumed-id lists against the player captured at pass start), send the
consumption notifications (`consumeFood` has no local effect whatever its
outcome; `consumePowerUp` appends the acknowledged effects on success),
apply `pointsEarned` once if positive, then run the remote-player loop.
`gameState` is never written by this function — consumed entities stay in
the working sets. -/
noncomputable def checkCollisions (p : Player) (gs : GameState)
    (_foodAck : Except Unit Unit) (puAck : Except Unit (Option (List PowerUp))) :
    CollisionResult :=
  let playerSize := calculateSize p.money
  let foodScan := gs.food.foldl (foodScanStep playerSize p.x p.y) (0, [])
  let puScan := gs.powerUps.foldl (powerUpScanStep playerSize p.x p.y) (foodScan.1, [])
  let pointsEarned := puScan.1
  let consumedFoodIds := foodScan.2
  let consumedPowerUpIds := puScan.2
  let p1 := applyPowerUpAck p consumedPowerUpIds puAck
  let p2 := applyPoints p1 pointsEarned
  let p3 := gs.otherPlayers.foldl (resolveOther playerSize p.x p.y) p2
  { player := p3,
    gameState := gs,
    consumedFoodIds := consumedFoodIds,
    consumedPowerUpIds := consumedPowerUpIds }

/-- The food overlap test of `checkCollisions` as a Boolean predicate on the
player captured at pass start. -/
noncomputable def hitFood (ps px py : ℝ) (f : Food) : Bool :=
  decide (distance px py f.x f.y < ps + FOOD_SIZE)

/-- Total food value overlapping the player at pass start: the amount that
the food scan contributes to `pointsEarned`. -/
noncomputable def foodGain (ps px py : ℝ) (foods : List Food) : ℝ :=
  ((foods.filter (hitFood ps px py)).map Food.value).sum

/-- The ids collected into `consumedFoodIds` by the food scan. -/
noncomputable def consumedFood (ps px py : ℝ) (foods : List Food) : List ℕ :=
  (foods.filter (hitFood ps px py)).map Food.id

/-- The power-up overlap test of `checkCollisions`. -/
noncomputable def hitPowerUp (ps px py : ℝ) (u : PowerUp) : Bool :=
  decide (distance px py u.x u.y < ps + u.size)

/-- Total power-up value overlapping the player at pass start. -/
noncomputable def powerUpGain (ps px py : ℝ) (powerUps : List PowerUp) : ℝ :=
  ((powerUps.filter (hitPowerUp ps px py)).map PowerUp.value).sum

/-- The ids collected into `consumedPowerUpIds` by the power-up scan. -/
noncomputable def consumedPower (ps px py : ℝ) (powerUps : List PowerUp) : List ℕ :=
  (powerUps.filter (hitPowerUp ps px py)).map PowerUp.id

/-- The remote-player overlap test of `checkCollisions`. -/
noncomputable def hitOther (ps px py : ℝ) (o : OtherPlayer) : Bool :=
  decide (distance px py o.x o.y < ps + calculateSize o.money)

/-- The `playerSize > otherSize * 1.2` consume test. -/
noncomputable def eatsOther (ps : ℝ) (o : OtherPlayer) : Bool :=
  decide (ps > calculateSize o.money * 1.2)

/-- A remote player that kills the local player this pass: overlapping, not
eaten by the local player, and larger than the local player by the margin. -/
noncomputable def eatenByOther (ps px py : ℝ) (o : OtherPlayer) : Bool :=
  hitOther ps px py o && !eatsOther ps o && decide (calculateSize o.money > ps * 1.2)

/-- Total `Math.floor(other.money * 0.8)` gain over the remote players the
local player eats this pass. -/
noncomputable def pvpGain (ps px py : ℝ) (others : List OtherPlayer) : ℝ :=
  ((others.filter (fun o => hitOther ps px py o && eatsOther ps o)).map
    (fun o => ((Int.floor (o.money * 0.8) : ℤ) : ℝ))).sum

/-- The boundary handling of `gameLoop` for one axis, mirroring the two
sequential `if` statements: first `if (v < size) { v = size; d *= -0.5 }`,
then `if (v > limit - size) { v = limit - size; d *= -0.5 }`.  Returns the
clamped coordinate and the (possibly dampened) direction component. -/
noncomputable def boundAxis (size limit v d : ℝ) : ℝ × ℝ :=
  let lower := if v < size then (size, d * (-0.5)) else (v, d)
  if lower.1 > limit - size then (limit - size, lower.2 * (-0.5)) else lower

/-- The position-update block of `gameLoop` of the networked copy: compute
`size` and `speed`, advance the position along `direction` (if set), then
apply the boundary handling on both axes.  The in-place damping of the
direction vector (`prev.direction.x *= -0.5`) is reflected in the returned
direction. -/
noncomputable def gameLoopMove (p : Player) : Player :=
  let size := calculateSize p.money
  let sp := speed size
  match p.direction with
  | none =>
      let bx := boundAxis size CANVAS_WIDTH p.x 0
      let by_ := boundAxis size CANVAS_HEIGHT p.y 0
      { p with x := bx.1, y := by_.1 }
  | some d =>
      let bx := boundAxis size CANVAS_WIDTH (p.x + d.x * sp) d.x
      let by_ := boundAxis size CANVAS_HEIGHT (p.y + d.y * sp) d.y
      { p with x := bx.1, y := by_.1, direction := some ⟨bx.2, by_.2⟩ }

/-- `updateGameStateFromServer` (the pull): replace `food`, `otherPlayers`
(filtering out any entry whose `playerId` equals the local player's id),
`powerUps` and `gameStats` wholesale from the snapshot, defaulting each
missing component (`|| []`, `|| {}`).  All other local state — in particular
the whole `player` record — is untouched. -/
def updateGameStateFromServer (localId : ℕ) (gs : GameState) (sv : ServerState) :
    GameState :=
  { gs with
    food := sv.food.getD [],
    otherPlayers := (sv.players.getD []).filter (fun q => q.playerId != localId),
    powerUps := sv.powerUps.getD [],
    gameStats := sv.gameStats.getD ⟨0, 0⟩ }

/-- One pull cycle: on success apply the snapshot through
`updateGameStateFromServer`; on failure (`catch`) log and leave every piece
of local state exactly as it was. -/
def pullUpdate (p : Player) (gs : GameState) (res : Except Unit ServerState) :
    Player × GameState :=
  match res with
  | Except.ok sv => (p, updateGameStateFromServer p.id gs sv)
  | Except.error _ => (p, gs)

/-- `sendPositionUpdate` (the push): fire-and-forget; neither a successful
nor a failed acknowledgement changes any local state. -/
def sendPositionUpdate (p : Player) (_ack : Except Unit Unit) : Player := p

/-- The observable outcome of one `gameLoop` invocation: the local player,
the working world state, whether a position push was issued this tick, and
the id lists carried by the consumption notifications (an empty list means
the corresponding call is not made). -/
structure TickResult where
  player : Player
  gameState : GameState
  pushedPosition : Bool
  sentFoodIds : List ℕ
  sentPowerUpIds : List ℕ

/-- One `gameLoop` tick of the networked copy.  `if (!player.isAlive)
return;` guards everything: a dead player's tick performs no movement, no
collision pass, no push and no notification.  Otherwise: integrate the
position, push the position if `now - lastPositionUpdate >
POSITION_UPDATE_INTERVAL`, then run `checkCollisions`. -/
noncomputable def tick (p : Player) (gs : GameState) (now lastPositionUpdate : ℝ)
    (posAck foodAck : Except Unit Unit)
    (puAck : Except Unit (Option (List PowerUp))) : TickResult :=
  if p.isAlive then
    let p1 := gameLoopMove p
    let pushed := decide (now - lastPositionUpdate > POSITION_UPDATE_INTERVAL)
    let p2 := if pushed then sendPositionUpdate p1 posAck else p1
    let r := checkCollisions p2 gs foodAck puAck
    { player := r.player,
      gameState := r.gameState,
      pushedPosition := pushed,
      sentFoodIds := r.consumedFoodIds,
      sentPowerUpIds := r.consumedPowerUpIds }
  else
    { player := p, gameState := gs, pushedPosition := false,
      sentFoodIds := [], sentPowerUpIds := [] }

end GC

/-! ## The mock-data engine copy (earlier `GameCanvas.js` kept in the repo) -/

namespace Mock

/-- `const CANVAS_WIDTH = 800`. -/
def CANVAS_WIDTH : ℝ := 800

/-- `const CANVAS_HEIGHT = 600`. -/
def CANVAS_HEIGHT : ℝ := 600

/-- `const MOVE_SPEED = 3`. -/
def MOVE_SPEED : ℝ := 3

/-- `const MIN_SIZE = 10`. -/
def MIN_SIZE : ℝ := 10

/-- `const FOOD_SIZE = 3`. -/
def FOOD_SIZE : ℝ := 3

/-- `calculateSize(money) = MIN_SIZE + Math.sqrt(money / 10)` (same formula
as the networked copy, with `MIN_SIZE = 10`). -/
noncomputable def calculateSize (money : ℝ) : ℝ :=
  MIN_SIZE + Real.sqrt (money / 10)

/-- The dynamic speed of the mock `gameLoop`:
`Math.max(MOVE_SPEED - size * 0.05, 1)`. -/
noncomputable def speed (size : ℝ) : ℝ :=
  max (MOVE_SPEED - size * 0.05) 1

/-- One step of the mock food filter: on overlap the player immediately
gains `food.value` on `virtualMoney`, `money` and `score`, and the pellet is
dropped from the kept list; otherwise it is kept. -/
noncomputable def foodStep (ps px py : ℝ) (acc : Player × List Food) (f : Food) :
    Player × List Food :=
  if distance px py f.x f.y < ps + FOOD_SIZE then
    ({ acc.1 with
        virtualMoney := acc.1.virtualMoney + f.value,
        money := acc.1.money + f.value,
        score := acc.1.score + f.value }, acc.2)
  else (acc.1, acc.2 ++ [f])

/-- One step of the mock power-up filter: on overlap the effect (with
`duration: 10000`) is appended to `player.powerUps`, the player gains
`powerUp.value` on `virtualMoney` and `money` (not on `score`), and the
power-up is dropped; otherwise it is kept. -/
noncomputable def powerUpStep (ps px py : ℝ) (acc : Player × List PowerUp)
    (u : PowerUp) : Player × List PowerUp :=
  if distance px py u.x u.y < ps + u.size then
    ({ acc.1 with
        powerUps := acc.1.powerUps ++ [{ u with duration := 10000 }],
        virtualMoney := acc.1.virtualMoney + u.value,
        money := acc.1.money + u.value }, acc.2)
  else (acc.1, acc.2 ++ [u])

/-- One step of the mock remote-player filter: on overlap, if
`playerSize > otherSize * 1.2` the player eats the other (gains
`Math.floor(otherPlayer.money * 0.8)` on `virtualMoney`, `money`, `score`,
one kill) and the other is removed; else if `otherSize > playerSize * 1.2`
the player is marked not alive and the other is kept; otherwise both are
unchanged. -/
noncomputable def otherStep (ps px py : ℝ) (acc : Player × List OtherPlayer)
    (o : OtherPlayer) : Player × List OtherPlayer :=
  let otherSize := calculateSize o.money
  if distance px py o.x o.y < ps + otherSize then
    if ps > otherSize * 1.2 then
      ({ acc.1 with
          virtualMoney := acc.1.virtualMoney + ((Int.floor (o.money * 0.8) : ℤ) : ℝ),
          money := acc.1.money + ((Int.floor (o.money * 0.8) : ℤ) : ℝ),
          score := acc.1.score + ((Int.floor (o.money * 0.8) : ℤ) : ℝ),
          kills := acc.1.kills + 1 }, acc.2)
    else if otherSize > ps * 1.2 then
      ({ acc.1 with isAlive := false }, acc.2 ++ [o])
    else (acc.1, acc.2 ++ [o])
  else (acc.1, acc.2 ++ [o])

/-- `checkCollisions` of the mock copy: filter the food set, then the
power-up set, then the remote-player set, applying the per-entity `setPlayer`
updates in program order; every hit test uses the player size and position
captured at the start of the pass.  Returns the updated player and the three
filtered sets (consumed entities are removed immediately). -/
noncomputable def checkCollisions (p : Player) (food : List Food)
    (powerUps : List PowerUp) (others : List OtherPlayer) :
    Player × List Food × List PowerUp × List OtherPlayer :=
  let playerSize := calculateSize p.money
  let fr := food.foldl (foodStep playerSize p.x p.y) (p, [])
  let ur := powerUps.foldl (powerUpStep playerSize p.x p.y) (fr.1, [])
  let orr := others.foldl (otherStep playerSize p.x p.y) (ur.1, [])
  (orr.1, fr.2, ur.2, orr.2)

/-- The mock food overlap test (uses the mock `FOOD_SIZE = 3` and the mock
`calculateSize`). -/
noncomputable def hitFood (ps px py : ℝ) (f : Food) : Bool :=
  decide (distance px py f.x f.y < ps + FOOD_SIZE)

/-- Total food value consumed by one mock pass. -/
noncomputable def foodGain (ps px py : ℝ) (foods : List Food) : ℝ :=
  ((foods.filter (hitFood ps px py)).map Food.value).sum

/-- The mock power-up overlap test. -/
noncomputable def hitPowerUp (ps px py : ℝ) (u : PowerUp) : Bool :=
  decide (distance px py u.x u.y < ps + u.size)

/-- Total power-up value consumed by one mock pass. -/
noncomputable def powerUpGain (ps px py : ℝ) (powerUps : List PowerUp) : ℝ :=
  ((powerUps.filter (hitPowerUp ps px py)).map PowerUp.value).sum

/-- The mock remote-player overlap test. -/
noncomputable def hitOther (ps px py : ℝ) (o : OtherPlayer) : Bool :=
  decide (distance px py o.x o.y < ps + calculateSize o.money)

/-- The mock `playerSize > otherSize * 1.2` consume test. -/
noncomputable def eatsOther (ps : ℝ) (o : OtherPlayer) : Bool :=
  decide (ps > calculateSize o.money * 1.2)

/-- Total eaten-player gain over one mock pass. -/
noncomputable def pvpGain (ps px py : ℝ) (others : List OtherPlayer) : ℝ :=
  ((others.filter (fun o => hitOther ps px py o && eatsOther ps o)).map
    (fun o => ((Int.floor (o.money * 0.8) : ℤ) : ℝ))).sum

/-- The position-update block of the mock `gameLoop`: advance along the
direction (if set) and clamp each axis with
`Math.max(size, Math.min(limit - size, v))`. -/
noncomputable def gameLoopMove (p : Player) : Player :=
  let size := calculateSize p.money
  let sp := speed size
  let newX := match p.direction with | some d => p.x + d.x * sp | none => p.x
  let newY := match p.direction with | some d => p.y + d.y * sp | none => p.y
  { p with
    x := max size (min (CANVAS_WIDTH - size) newX),
    y := max size (min (CANVAS_HEIGHT - size) newY) }

end Mock

/-! ## Helper lemmas -/

theorem sqrt_eval {a b : ℝ} (hb : 0 ≤ b) (h : b * b = a) : Real.sqrt a = b := by
  rw [← h, Real.sqrt_mul_self hb]

theorem distance_eval {x1 y1 x2 y2 d : ℝ} (hd : 0 ≤ d)
    (h : d * d = (x1 - x2) * (x1 - x2) + (y1 - y2) * (y1 - y2)) :
    distance x1 y1 x2 y2 = d := by
  rw [distance, ← h, Real.sqrt_mul_self hd]

theorem distance_nonneg (x1 y1 x2 y2 : ℝ) : 0 ≤ distance x1 y1 x2 y2 :=
  Real.sqrt_nonneg _

namespace GC

theorem calculateSize_eval {m s : ℝ} (hs : 0 ≤ s) (h : s * s = m / 10) :
    calculateSize m = 12 + s := by
  unfold calculateSize MIN_SIZE
  rw [sqrt_eval hs h]

theorem calculateSize_lt {m1 m2 : ℝ} (h0 : 0 ≤ m1) (h : m1 < m2) :
    calculateSize m1 < calculateSize m2 := by
  unfold calculateSize
  have hs : Real.sqrt (m1 / 10) < Real.sqrt (m2 / 10) :=
    Real.sqrt_lt_sqrt (by linarith) (by linarith)
  linarith

theorem calculateSize_ge (m : ℝ) : MIN_SIZE ≤ calculateSize m := by
  unfold calculateSize
  have := Real.sqrt_nonneg (m / 10)
  linarith

end GC

namespace Mock

theorem calcSize_eval {m s : ℝ} (hs : 0 ≤ s) (h : s * s = m / 10) :
    calculateSize m = 10 + s := by
  unfold calculateSize MIN_SIZE
  rw [sqrt_eval hs h]

theorem calcSize_lt {m1 m2 : ℝ} (h0 : 0 ≤ m1) (h : m1 < m2) :
    calculateSize m1 < calculateSize m2 := by
  unfold calculateSize
  have hs : Real.sqrt (m1 / 10) < Real.sqrt (m2 / 10) :=
    Real.sqrt_lt_sqrt (by linarith) (by linarith)
  linarith

theorem calcSize_ge (m : ℝ) : MIN_SIZE ≤ calculateSize m := by
  unfold calculateSize
  have := Real.sqrt_nonneg (m / 10)
  linarith

end Mock

namespace GC

theorem foodScan_foldl (ps px py : ℝ) (foods : List Food) :
    ∀ acc : ℝ × List ℕ,
      foods.foldl (foodScanStep ps px py) acc =
        (acc.1 + foodGain ps px py foods, acc.2 ++ consumedFood ps px py foods) := by
  induction foods with
  | nil => intro acc; simp [foodGain, consumedFood]
  | cons f t ih =>
      intro acc
      rw [List.foldl_cons, ih]
      unfold foodScanStep foodGain consumedFood hitFood
      by_cases h : distance px py f.x f.y < ps + FOOD_SIZE
      · simp [h, List.filter_cons, add_assoc, foodGain, consumedFood, hitFood]
      · simp [h, List.filter_cons, foodGain, consumedFood, hitFood]

theorem powerUpScan_foldl (ps px py : ℝ) (powerUps : List PowerUp) :
    ∀ acc : ℝ × List ℕ,
      powerUps.foldl (powerUpScanStep ps px py) acc =
        (acc.1 + powerUpGain ps px py powerUps, acc.2 ++ consumedPower ps px py powerUps) := by
  induction powerUps with
  | nil => intro acc; simp [powerUpGain, consumedPower]
  | cons u t ih =>
      intro acc
      rw [List.foldl_cons, ih]
      unfold powerUpScanStep powerUpGain consumedPower hitPowerUp
      by_cases h : distance px py u.x u.y < ps + u.size
      · simp [h, List.filter_cons, add_assoc, powerUpGain, consumedPower, hitPowerUp]
      · simp [h, List.filter_cons, powerUpGain, consumedPower, hitPowerUp]

theorem resolveOther_money (ps px py : ℝ) (p : Player) (o : OtherPlayer) :
    (resolveOther ps px py p o).money =
      p.money + (if hitOther ps px py o && eatsOther ps o then
        ((Int.floor (o.money * 0.8) : ℤ) : ℝ) else 0) := by
  unfold resolveOther hitOther eatsOther
  by_cases h1 : distance px py o.x o.y < ps + calculateSize o.money
  · by_cases h2 : ps > calculateSize o.money * 1.2
    · simp [h1, h2]
    · by_cases h3 : calculateSize o.money > ps * 1.2 <;> simp [h1, h2, h3]
  · simp [h1]

theorem resolveOther_virtualMoney (ps px py : ℝ) (p : Player) (o : OtherPlayer) :
    (resolveOther ps px py p o).virtualMoney =
      p.virtualMoney + (if hitOther ps px py o && eatsOther ps o then
        ((Int.floor (o.money * 0.8) : ℤ) : ℝ) else 0) := by
  unfold resolveOther hitOther eatsOther
  by_cases h1 : distance px py o.x o.y < ps + calculateSize o.money
  · by_cases h2 : ps > calculateSize o.money * 1.2
    · simp [h1, h2]
    · by_cases h3 : calculateSize o.money > ps * 1.2 <;> simp [h1, h2, h3]
  · simp [h1]

theorem resolveOther_score (ps px py : ℝ) (p : Player) (o : OtherPlayer) :
    (resolveOther ps px py p o).score =
      p.score + (if hitOther ps px py o && eatsOther ps o then
        ((Int.floor (o.money * 0.8) : ℤ) : ℝ) else 0) := by
  unfold resolveOther hitOther eatsOther
  by_cases h1 : distance px py o.x o.y < ps + calculateSize o.money
  · by_cases h2 : ps > calculateSize o.money * 1.2
    · simp [h1, h2]
    · by_cases h3 : calculateSize o.money > ps * 1.2 <;> simp [h1, h2, h3]
  · simp [h1]

theorem resolveOther_isAlive (ps px py : ℝ) (p : Player) (o : OtherPlayer) :
    (resolveOther ps px py p o).isAlive = (p.isAlive && !eatenByOther ps px py o) := by
  unfold resolveOther eatenByOther hitOther eatsOther
  by_cases h1 : distance px py o.x o.y < ps + calculateSize o.money
  · by_cases h2 : ps > calculateSize o.money * 1.2
    · simp [h1, h2]
    · by_cases h3 : calculateSize o.money > ps * 1.2 <;> simp [h1, h2, h3]
  · simp [h1]

theorem resolveOther_foldl_money (ps px py : ℝ) (others : List OtherPlayer) :
    ∀ q : Player, (others.foldl (resolveOther ps px py) q).money =
      q.money + pvpGain ps px py others := by
  induction others with
  | nil => intro q; simp [pvpGain]
  | cons o t ih =>
      intro q
      rw [List.foldl_cons, ih, resolveOther_money]
      unfold pvpGain
      by_cases h : (hitOther ps px py o && eatsOther ps o) = true
      · simp [h, List.filter_cons, add_assoc, pvpGain]
      · simp [h, List.filter_cons, pvpGain]

theorem resolveOther_foldl_virtualMoney (ps px py : ℝ) (others : List OtherPlayer) :
    ∀ q : Player, (others.foldl (resolveOther ps px py) q).virtualMoney =
      q.virtualMoney + pvpGain ps px py others := by
  induction others with
  | nil => intro q; simp [pvpGain]
  | cons o t ih =>
      intro q
      rw [List.foldl_cons, ih, resolveOther_virtualMoney]
      unfold pvpGain
      by_cases h : (hitOther ps px py o && eatsOther ps o) = true
      · simp [h, List.filter_cons, add_assoc, pvpGain]
      · simp [h, List.filter_cons, pvpGain]

theorem resolveOther_foldl_score (ps px py : ℝ) (others : List OtherPlayer) :
    ∀ q : Player, (others.foldl (resolveOther ps px py) q).score =
      q.score + pvpGain ps px py others := by
  induction others with
  | nil => intro q; simp [pvpGain]
  | cons o t ih =>
      intro q
      rw [List.foldl_cons, ih, resolveOther_score]
      unfold pvpGain
      by_cases h : (hitOther ps px py o && eatsOther ps o) = true
      · simp [h, List.filter_cons, add_assoc, pvpGain]
      · simp [h, List.filter_cons, pvpGain]

theorem resolveOther_foldl_isAlive (ps px py : ℝ) (others : List OtherPlayer) :
    ∀ q : Player, (others.foldl (resolveOther ps px py) q).isAlive =
      (q.isAlive && !(others.any (eatenByOther ps px py))) := by
  induction others with
  | nil => intro q; simp
  | cons o t ih =>
      intro q
      rw [List.foldl_cons, ih, resolveOther_isAlive]
      simp [List.any_cons, Bool.and_assoc]

theorem applyPoints_money (p : Player) (pts : ℝ) (h : 0 ≤ pts) :
    (applyPoints p pts).money = p.money + pts := by
  unfold applyPoints
  by_cases h2 : pts > 0
  · simp [h2]
  · have h0 : pts = 0 := le_antisymm (not_lt.mp h2) h
    simp [h2, h0]

theorem applyPoints_virtualMoney (p : Player) (pts : ℝ) (h : 0 ≤ pts) :
    (applyPoints p pts).virtualMoney = p.virtualMoney + pts := by
  unfold applyPoints
  by_cases h2 : pts > 0
  · simp [h2]
  · have h0 : pts = 0 := le_antisymm (not_lt.mp h2) h
    simp [h2, h0]

theorem applyPoints_score (p : Player) (pts : ℝ) (h : 0 ≤ pts) :
    (applyPoints p pts).score = p.score + pts := by
  unfold applyPoints
  by_cases h2 : pts > 0
  · simp [h2]
  · have h0 : pts = 0 := le_antisymm (not_lt.mp h2) h
    simp [h2, h0]

theorem applyPoints_isAlive (p : Player) (pts : ℝ) :
    (applyPoints p pts).isAlive = p.isAlive := by
  unfold applyPoints
  split_ifs <;> rfl

theorem applyPowerUpAck_money (p : Player) (ids : List ℕ)
    (ack : Except Unit (Option (List PowerUp))) :
    (applyPowerUpAck p ids ack).money = p.money := by
  unfold applyPowerUpAck
  split_ifs
  · cases ack with
    | ok v => cases v <;> rfl
    | error e => rfl
  · rfl

theorem applyPowerUpAck_virtualMoney (p : Player) (ids : List ℕ)
    (ack : Except Unit (Option (List PowerUp))) :
    (applyPowerUpAck p ids ack).virtualMoney = p.virtualMoney := by
  unfold applyPowerUpAck
  split_ifs
  · cases ack with
    | ok v => cases v <;> rfl
    | error e => rfl
  · rfl

theorem applyPowerUpAck_score (p : Player) (ids : List ℕ)
    (ack : Except Unit (Option (List PowerUp))) :
    (applyPowerUpAck p ids ack).score = p.score := by
  unfold applyPowerUpAck
  split_ifs
  · cases ack with
    | ok v => cases v <;> rfl
    | error e => rfl
  · rfl

theorem applyPowerUpAck_isAlive (p : Player) (ids : List ℕ)
    (ack : Except Unit (Option (List PowerUp))) :
    (applyPowerUpAck p ids ack).isAlive = p.isAlive := by
  unfold applyPowerUpAck
  split_ifs
  · cases ack with
    | ok v => cases v <;> rfl
    | error e => rfl
  · rfl

theorem checkCollisions_fields (p : Player) (gs : GameState)
    (fa : Except Unit Unit) (pa : Except Unit (Option (List PowerUp))) :
    (checkCollisions p gs fa pa).gameState = gs ∧
    (checkCollisions p gs fa pa).consumedFoodIds =
      consumedFood (calculateSize p.money) p.x p.y gs.food ∧
    (checkCollisions p gs fa pa).consumedPowerUpIds =
      consumedPower (calculateSize p.money) p.x p.y gs.powerUps ∧
    (checkCollisions p gs fa pa).player =
      gs.otherPlayers.foldl (resolveOther (calculateSize p.money) p.x p.y)
        (applyPoints
          (applyPowerUpAck p (consumedPower (calculateSize p.money) p.x p.y gs.powerUps) pa)
          (foodGain (calculateSize p.money) p.x p.y gs.food +
            powerUpGain (calculateSize p.money) p.x p.y gs.powerUps)) := by
  simp only [checkCollisions, foodScan_foldl, powerUpScan_foldl]
  simp

theorem foodGain_nonneg (ps px py : ℝ) (foods : List Food)
    (h : ∀ f ∈ foods, 0 ≤ f.value) : 0 ≤ foodGain ps px py foods := by
  unfold foodGain
  apply List.sum_nonneg
  intro v hv
  simp only [List.mem_map, List.mem_filter] at hv
  obtain ⟨f, ⟨hf, _⟩, rfl⟩ := hv
  exact h f hf

theorem powerUpGain_nonneg (ps px py : ℝ) (powerUps : List PowerUp)
    (h : ∀ u ∈ powerUps, 0 ≤ u.value) : 0 ≤ powerUpGain ps px py powerUps := by
  unfold powerUpGain
  apply List.sum_nonneg
  intro v hv
  simp only [List.mem_map, List.mem_filter] at hv
  obtain ⟨u, ⟨hu, _⟩, rfl⟩ := hv
  exact h u hu

theorem applyPoints_money_ite (p : Player) (pts : ℝ) :
    (applyPoints p pts).money = if pts > 0 then p.money + pts else p.money := by
  unfold applyPoints
  split_ifs <;> rfl

theorem applyPoints_score_ite (p : Player) (pts : ℝ) :
    (applyPoints p pts).score = if pts > 0 then p.score + pts else p.score := by
  unfold applyPoints
  split_ifs <;> rfl

theorem boundAxis_fst_low_over {size limit v d : ℝ} (h1 : v < size)
    (h2 : size > limit - size) : (boundAxis size limit v d).1 = limit - size := by
  simp [boundAxis, h1, h2]

theorem boundAxis_fst_mid {size limit v d : ℝ} (h1 : ¬ v < size)
    (h2 : ¬ v > limit - size) : (boundAxis size limit v d).1 = v := by
  simp [boundAxis, h1, h2]

theorem boundAxis_bounds {size limit : ℝ} (v d : ℝ) (h : size ≤ limit - size) :
    size ≤ (boundAxis size limit v d).1 ∧ (boundAxis size limit v d).1 ≤ limit - size := by
  unfold boundAxis
  by_cases h1 : v < size
  · simp only [if_pos h1]
    rw [if_neg (not_lt.mpr h)]
    exact ⟨le_refl _, h⟩
  · simp only [if_neg h1]
    by_cases h2 : v > limit - size
    · rw [if_pos h2]
      exact ⟨h, le_refl _⟩
    · rw [if_neg h2]
      exact ⟨not_lt.mp h1, not_lt.mp h2⟩

end GC

namespace Mock

theorem food_foldl_kept (ps px py : ℝ) (foods : List Food) :
    ∀ acc : Player × List Food,
      (foods.foldl (foodStep ps px py) acc).2 =
        acc.2 ++ foods.filter (fun f => !hitFood ps px py f) := by
  induction foods with
  | nil => intro acc; simp
  | cons f t ih =>
      intro acc
      rw [List.foldl_cons, ih]
      unfold foodStep hitFood
      by_cases h : distance px py f.x f.y < ps + FOOD_SIZE
      · simp [h, List.filter_cons]
      · simp [h, List.filter_cons]

end Mock

/-! ## Claim theorems -/

/-- C2: in both engine copies the sizing law
`radius(mass) = MIN_SIZE + sqrt(mass / 10)` holds (`calculateSize`), the
radius is a strictly increasing function of the mass for masses ≥ 0 (hence
monotonically non-decreasing), and the radius is at least `MIN_SIZE`. -/
theorem C2_sizing_law (m1 : ℝ) (h0 : 0 ≤ m1) :
    GC.calculateSize m1 = GC.MIN_SIZE + Real.sqrt (m1 / 10) ∧
    Mock.calculateSize m1 = Mock.MIN_SIZE + Real.sqrt (m1 / 10) ∧
    GC.MIN_SIZE ≤ GC.calculateSize m1 ∧
    Mock.MIN_SIZE ≤ Mock.calculateSize m1 ∧
    ∀ m2 : ℝ, m1 < m2 →
      GC.calculateSize m1 < GC.calculateSize m2 ∧
      Mock.calculateSize m1 < Mock.calculateSize m2 :=
  ⟨rfl, rfl, GC.calculateSize_ge m1, Mock.calcSize_ge m1,
    fun _ h => ⟨GC.calculateSize_lt h0 h, Mock.calcSize_lt h0 h⟩⟩

/-- C2 witness: the sizing law instantiated at masses 0 and 10. -/
theorem C2_witness :
    (0 : ℝ) ≤ 0 ∧ (0 : ℝ) < 10 ∧
    GC.MIN_SIZE ≤ GC.calculateSize 0 ∧
    GC.calculateSize 0 < GC.calculateSize 10 ∧
    Mock.calculateSize 0 < Mock.calculateSize 10 := by
  obtain ⟨-, -, h3, -, h5⟩ := C2_sizing_law 0 le_rfl
  have h10 : (0 : ℝ) < 10 := by norm_num
  exact ⟨le_rfl, h10, h3, (h5 10 h10).1, (h5 10 h10).2⟩

/-- C9 counterexample: the two engine copies do not compute the identical
speed function — at radius 0 the networked copy yields 4 and the mock copy
yields 3. -/
theorem C9_counterexample :
    GC.speed 0 = 4 ∧ Mock.speed 0 = 3 ∧ GC.speed 0 ≠ Mock.speed 0 := by
  have h1 : GC.speed 0 = 4 := by
    unfold GC.speed GC.MOVE_SPEED
    rw [show (4 : ℝ) - 0 * 0.03 = 4 by ring]
    exact max_eq_left (by norm_num)
  have h2 : Mock.speed 0 = 3 := by
    unfold Mock.speed Mock.MOVE_SPEED
    rw [show (3 : ℝ) - 0 * 0.05 = 3 by ring]
    exact max_eq_left (by norm_num)
  refine ⟨h1, h2, ?_⟩
  rw [h1, h2]
  norm_num

/-- C9 (amended): both engine copies compute a speed of the shape
`max(BASE_SPEED - radius * DRAG, FLOOR)`, but with different constants
(networked copy: 4, 0.03, 2; mock copy: 3, 0.05, 1); the two speed functions
are not extensionally equal — at every nonnegative radius the networked copy
is strictly faster. -/
theorem C9_speed_shape (r : ℝ) :
    GC.speed r = max (4 - r * 0.03) 2 ∧
    Mock.speed r = max (3 - r * 0.05) 1 ∧
    (0 ≤ r → Mock.speed r < GC.speed r) := by
  refine ⟨rfl, rfl, fun h0 => ?_⟩
  unfold GC.speed Mock.speed GC.MOVE_SPEED Mock.MOVE_SPEED
  have hab : (3 : ℝ) - r * 0.05 < 4 - r * 0.03 := by linarith
  apply max_lt
  · exact lt_of_lt_of_le hab (le_max_left _ _)
  · exact lt_of_lt_of_le one_lt_two (le_max_right _ _)

/-- C9 witness: the strict speed gap between the two copies at radius 0. -/
theorem C9_witness : (0 : ℝ) ≤ 0 ∧ Mock.speed 0 < GC.speed 0 :=
  ⟨le_rfl, (C9_speed_shape 0).2.2 le_rfl⟩

/-- C5: applying a pulled world snapshot replaces the food, power-up and
remote-player sets wholesale with the snapshot's contents, filters out of
the remote-player set every entry whose `playerId` equals the local player's
id, and leaves every field of the local player record unchanged. -/
theorem C5_snapshot_replacement (p : Player) (gs : GameState) (sv : ServerState) :
    GC.pullUpdate p gs (Except.ok sv) =
      (p, { gs with
              food := sv.food.getD [],
              otherPlayers := (sv.players.getD []).filter (fun q => q.playerId != p.id),
              powerUps := sv.powerUps.getD [],
              gameStats := sv.gameStats.getD ⟨0, 0⟩ }) ∧
    ((sv.players.getD []).filter (fun q => q.playerId != p.id)).all
      (fun q => q.playerId != p.id) = true :=
  ⟨rfl, List.all_eq_true.mpr (fun _ hq => (List.mem_filter.mp hq).2)⟩

/-- C8: every failed network call leaves the engine's local state exactly as
it was: a collision pass whose consumption notifications fail equals one
whose calls succeed with no payload (so the optimistic money/score award is
never rolled back — the awarded `money`/`score` are the same for every
combination of acknowledgements), a failed pull changes nothing, and a push
acknowledgement has no local effect. -/
theorem C8_network_failure_frame (p : Player) (gs : GameState)
    (ack fa1 fa2 : Except Unit Unit)
    (pa1 pa2 : Except Unit (Option (List PowerUp))) :
    GC.checkCollisions p gs (Except.error ()) (Except.error ()) =
      GC.checkCollisions p gs (Except.ok ()) (Except.ok none) ∧
    GC.pullUpdate p gs (Except.error ()) = (p, gs) ∧
    GC.sendPositionUpdate p ack = p ∧
    (GC.checkCollisions p gs fa1 pa1).player.money =
      (GC.checkCollisions p gs fa2 pa2).player.money ∧
    (GC.checkCollisions p gs fa1 pa1).player.score =
      (GC.checkCollisions p gs fa2 pa2).player.score := by
  refine ⟨rfl, rfl, rfl, ?_, ?_⟩
  · rw [(GC.checkCollisions_fields p gs fa1 pa1).2.2.2,
      (GC.checkCollisions_fields p gs fa2 pa2).2.2.2,
      GC.resolveOther_foldl_money, GC.resolveOther_foldl_money,
      GC.applyPoints_money_ite, GC.applyPoints_money_ite,
      GC.applyPowerUpAck_money, GC.applyPowerUpAck_money]
  · rw [(GC.checkCollisions_fields p gs fa1 pa1).2.2.2,
      (GC.checkCollisions_fields p gs fa2 pa2).2.2.2,
      GC.resolveOther_foldl_score, GC.resolveOther_foldl_score,
      GC.applyPoints_score_ite, GC.applyPoints_score_ite,
      GC.applyPowerUpAck_score, GC.applyPowerUpAck_score]

/-- C4: within one collision pass of the networked copy, all food and
power-up value gains are summed over the full entity scan — every overlap
test and every summand is a function of the player as it was at pass start —
and the total is reflected in the local player's money, virtual money and
score exactly once by the end of the pass; the consumed-id lists are
likewise computed from the pass-start player. -/
theorem C4_batched_gains (p : Player) (gs : GameState)
    (fa : Except Unit Unit) (pa : Except Unit (Option (List PowerUp)))
    (hf : ∀ f ∈ gs.food, 0 ≤ f.value) (hu : ∀ u ∈ gs.powerUps, 0 ≤ u.value) :
    (GC.checkCollisions p gs fa pa).player.money =
      p.money + (GC.foodGain (GC.calculateSize p.money) p.x p.y gs.food +
        GC.powerUpGain (GC.calculateSize p.money) p.x p.y gs.powerUps) +
        GC.pvpGain (GC.calculateSize p.money) p.x p.y gs.otherPlayers ∧
    (GC.checkCollisions p gs fa pa).player.virtualMoney =
      p.virtualMoney + (GC.foodGain (GC.calculateSize p.money) p.x p.y gs.food +
        GC.powerUpGain (GC.calculateSize p.money) p.x p.y gs.powerUps) +
        GC.pvpGain (GC.calculateSize p.money) p.x p.y gs.otherPlayers ∧
    (GC.checkCollisions p gs fa pa).player.score =
      p.score + (GC.foodGain (GC.calculateSize p.money) p.x p.y gs.food +
        GC.powerUpGain (GC.calculateSize p.money) p.x p.y gs.powerUps) +
        GC.pvpGain (GC.calculateSize p.money) p.x p.y gs.otherPlayers ∧
    (GC.checkCollisions p gs fa pa).consumedFoodIds =
      GC.consumedFood (GC.calculateSize p.money) p.x p.y gs.food ∧
    (GC.checkCollisions p gs fa pa).consumedPowerUpIds =
      GC.consumedPower (GC.calculateSize p.money) p.x p.y gs.powerUps := by
  have hg : 0 ≤ GC.foodGain (GC.calculateSize p.money) p.x p.y gs.food +
      GC.powerUpGain (GC.calculateSize p.money) p.x p.y gs.powerUps :=
    add_nonneg (GC.foodGain_nonneg _ _ _ _ hf) (GC.powerUpGain_nonneg _ _ _ _ hu)
  obtain ⟨-, h2, h3, h4⟩ := GC.checkCollisions_fields p gs fa pa
  refine ⟨?_, ?_, ?_, h2, h3⟩
  · rw [h4, GC.resolveOther_foldl_money, GC.applyPoints_money _ _ hg,
      GC.applyPowerUpAck_money]
  · rw [h4, GC.resolveOther_foldl_virtualMoney, GC.applyPoints_virtualMoney _ _ hg,
      GC.applyPowerUpAck_virtualMoney]
  · rw [h4, GC.resolveOther_foldl_score, GC.applyPoints_score _ _ hg,
      GC.applyPowerUpAck_score]

/-- C4 witness: a mass-0 player at the origin, one food pellet of value 5 at
distance 5 (consumed) and one power-up at distance 300 (not consumed) — the
pass awards exactly 5 to money. -/
theorem C4_witness :
    (∀ f ∈ ([⟨7, 3, 4, 5⟩] : List Food), 0 ≤ f.value) ∧
    (∀ u ∈ ([⟨8, 300, 0, 10, 20, 0⟩] : List PowerUp), 0 ≤ u.value) ∧
    (GC.checkCollisions ⟨1, 0, 0, 0, 0, 0, 0, true, none, []⟩
        ⟨[⟨7, 3, 4, 5⟩], [⟨8, 300, 0, 10, 20, 0⟩], [], ⟨0, 0⟩⟩
        (Except.ok ()) (Except.ok none)).player.money = 5 := by
  have hf : ∀ f ∈ ([⟨7, 3, 4, 5⟩] : List Food), 0 ≤ f.value := by
    intro f hf
    simp only [List.mem_singleton] at hf
    subst hf
    norm_num
  have hu : ∀ u ∈ ([⟨8, 300, 0, 10, 20, 0⟩] : List PowerUp), 0 ≤ u.value := by
    intro u hu
    simp only [List.mem_singleton] at hu
    subst hu
    norm_num
  obtain ⟨hm, -, -, -, -⟩ := C4_batched_gains ⟨1, 0, 0, 0, 0, 0, 0, true, none, []⟩
    ⟨[⟨7, 3, 4, 5⟩], [⟨8, 300, 0, 10, 20, 0⟩], [], ⟨0, 0⟩⟩
    (Except.ok ()) (Except.ok none) hf hu
  refine ⟨hf, hu, ?_⟩
  rw [hm]
  have hps : GC.calculateSize 0 = 12 := by
    rw [GC.calculateSize_eval (le_refl (0 : ℝ)) (by norm_num)]
    norm_num
  have hd1 : distance 0 0 3 4 = 5 := distance_eval (by norm_num) (by norm_num)
  have hd2 : distance 0 0 300 0 = 300 := distance_eval (by norm_num) (by norm_num)
  have hlt1 : distance 0 0 3 4 < 12 + GC.FOOD_SIZE := by
    rw [hd1]
    norm_num [GC.FOOD_SIZE]
  have hlt2 : ¬ distance 0 0 300 0 < 12 + (10 : ℝ) := by
    rw [hd2]
    norm_num
  unfold GC.foodGain GC.powerUpGain GC.pvpGain GC.hitFood GC.hitPowerUp
  dsimp only
  rw [hps]
  simp [hlt1, hlt2]

/-- C1 counterexample: in the networked copy, a local player of mass 100000
(radius 112) overlapping a remote player of mass 10 (radius 13, margin
satisfied) receives the eat outcome (kill count 0 → 1), yet the remote
player is not marked consumed in any way — the returned world state still
contains it, and the pass records no player-consumption at all. -/
theorem C1_counterexample :
    distance 0 0 0 0 < GC.calculateSize 100000 + GC.calculateSize 10 ∧
    GC.calculateSize 100000 > GC.calculateSize 10 * 1.2 ∧
    (GC.checkCollisions ⟨1, 0, 0, 100000, 0, 0, 0, true, none, []⟩
        ⟨[], [], [⟨2, 0, 0, 10, true⟩], ⟨0, 0⟩⟩
        (Except.ok ()) (Except.ok none)).player.kills = 1 ∧
    (GC.checkCollisions ⟨1, 0, 0, 100000, 0, 0, 0, true, none, []⟩
        ⟨[], [], [⟨2, 0, 0, 10, true⟩], ⟨0, 0⟩⟩
        (Except.ok ()) (Except.ok none)).gameState.otherPlayers =
      [⟨2, 0, 0, 10, true⟩] := by
  have hps : GC.calculateSize 100000 = 112 := by
    rw [GC.calculateSize_eval (by norm_num : (0 : ℝ) ≤ 100) (by norm_num)]
    norm_num
  have hos : GC.calculateSize 10 = 13 := by
    rw [GC.calculateSize_eval (by norm_num : (0 : ℝ) ≤ 1) (by norm_num)]
    norm_num
  have hd : distance 0 0 0 0 = 0 := distance_eval le_rfl (by norm_num)
  have hov : distance 0 0 0 0 < GC.calculateSize 100000 + GC.calculateSize 10 := by
    rw [hd, hps, hos]
    norm_num
  have heat : GC.calculateSize 100000 > GC.calculateSize 10 * 1.2 := by
    rw [hps, hos]
    norm_num
  obtain ⟨hA, -, -, h4⟩ := GC.checkCollisions_fields
    ⟨1, 0, 0, 100000, 0, 0, 0, true, none, []⟩
    ⟨[], [], [⟨2, 0, 0, 10, true⟩], ⟨0, 0⟩⟩ (Except.ok ()) (Except.ok none)
  refine ⟨hov, heat, ?_, by rw [hA]⟩
  rw [h4]
  unfold GC.foodGain GC.powerUpGain GC.consumedPower GC.hitFood GC.hitPowerUp
  dsimp only
  simp only [List.filter_nil, List.map_nil, List.sum_nil, List.foldl_cons,
    List.foldl_nil]
  simp [GC.applyPowerUpAck, GC.applyPoints, GC.resolveOther, hov, heat]

/-- C1 (amended): for an overlapping local/remote pair the networked copy
applies exactly one of the three 1.2-margin outcomes to the local player —
eat (gain `floor(other.money * 0.8)` on money/virtual money/score, one
kill), be eaten (alive flag false), or, within the margin, no change — but
it never marks the eaten remote player as consumed: the remote set it
returns is unchanged.  The mock copy applies the same eat outcome and does
remove the eaten player from its working set. -/
theorem C1_margin_resolution (p : Player) (o : OtherPlayer) (st : GameStats)
    (fa : Except Unit Unit) (pa : Except Unit (Option (List PowerUp))) :
    (distance p.x p.y o.x o.y < GC.calculateSize p.money + GC.calculateSize o.money →
      (GC.calculateSize p.money > GC.calculateSize o.money * 1.2 →
        (GC.checkCollisions p ⟨[], [], [o], st⟩ fa pa).player =
          { p with
              virtualMoney := p.virtualMoney + ((Int.floor (o.money * 0.8) : ℤ) : ℝ),
              money := p.money + ((Int.floor (o.money * 0.8) : ℤ) : ℝ),
              score := p.score + ((Int.floor (o.money * 0.8) : ℤ) : ℝ),
              kills := p.kills + 1 } ∧
        (GC.checkCollisions p ⟨[], [], [o], st⟩ fa pa).gameState.otherPlayers = [o]) ∧
      (¬ GC.calculateSize p.money > GC.calculateSize o.money * 1.2 →
        GC.calculateSize o.money > GC.calculateSize p.money * 1.2 →
        (GC.checkCollisions p ⟨[], [], [o], st⟩ fa pa).player =
          { p with isAlive := false }) ∧
      (¬ GC.calculateSize p.money > GC.calculateSize o.money * 1.2 →
        ¬ GC.calculateSize o.money > GC.calculateSize p.money * 1.2 →
        (GC.checkCollisions p ⟨[], [], [o], st⟩ fa pa).player = p)) ∧
    (distance p.x p.y o.x o.y < Mock.calculateSize p.money + Mock.calculateSize o.money →
      Mock.calculateSize p.money > Mock.calculateSize o.money * 1.2 →
      (Mock.checkCollisions p [] [] [o]).1 =
        { p with
            virtualMoney := p.virtualMoney + ((Int.floor (o.money * 0.8) : ℤ) : ℝ),
            money := p.money + ((Int.floor (o.money * 0.8) : ℤ) : ℝ),
            score := p.score + ((Int.floor (o.money * 0.8) : ℤ) : ℝ),
            kills := p.kills + 1 } ∧
      (Mock.checkCollisions p [] [] [o]).2.2.2 = []) := by
  have hred : (GC.checkCollisions p ⟨[], [], [o], st⟩ fa pa).player =
      GC.resolveOther (GC.calculateSize p.money) p.x p.y p o := by
    obtain ⟨-, -, -, h4⟩ := GC.checkCollisions_fields p ⟨[], [], [o], st⟩ fa pa
    rw [h4]
    unfold GC.foodGain GC.powerUpGain GC.consumedPower GC.hitFood GC.hitPowerUp
    dsimp only
    simp [GC.applyPowerUpAck, GC.applyPoints]
  constructor
  · intro hov
    refine ⟨fun heat => ⟨?_, ?_⟩, fun hneat hbig => ?_, fun hneat hnbig => ?_⟩
    · rw [hred]
      simp [GC.resolveOther, hov, heat]
    · rw [(GC.checkCollisions_fields p ⟨[], [], [o], st⟩ fa pa).1]
    · rw [hred]
      simp [GC.resolveOther, hov, hneat, hbig]
    · rw [hred]
      simp [GC.resolveOther, hov, hneat, hnbig]
  · intro hov heats
    constructor
    · simp [Mock.checkCollisions, Mock.otherStep, hov, heats]
    · simp [Mock.checkCollisions, Mock.otherStep, hov, heats]

/-- C1 witness: local mass 1000 vs remote mass 10 — radii 22 vs 13 in the
networked copy and 20 vs 11 in the mock copy, both above the 1.2 margin;
the local player gains `floor(10 * 0.8) = 8` (money 1000 → 1008), the
networked copy keeps the remote player in its set, the mock copy removes
it. -/
theorem C1_witness :
    distance 0 0 0 0 < GC.calculateSize 1000 + GC.calculateSize 10 ∧
    GC.calculateSize 1000 > GC.calculateSize 10 * 1.2 ∧
    distance 0 0 0 0 < Mock.calculateSize 1000 + Mock.calculateSize 10 ∧
    Mock.calculateSize 1000 > Mock.calculateSize 10 * 1.2 ∧
    (GC.checkCollisions ⟨1, 0, 0, 1000, 0, 0, 0, true, none, []⟩
        ⟨[], [], [⟨2, 0, 0, 10, true⟩], ⟨0, 0⟩⟩
        (Except.ok ()) (Except.ok none)).player.money = 1008 ∧
    (GC.checkCollisions ⟨1, 0, 0, 1000, 0, 0, 0, true, none, []⟩
        ⟨[], [], [⟨2, 0, 0, 10, true⟩], ⟨0, 0⟩⟩
        (Except.ok ()) (Except.ok none)).gameState.otherPlayers =
      [⟨2, 0, 0, 10, true⟩] ∧
    (Mock.checkCollisions ⟨1, 0, 0, 1000, 0, 0, 0, true, none, []⟩
        [] [] [⟨2, 0, 0, 10, true⟩]).2.2.2 = [] := by
  have hd : distance 0 0 0 0 = 0 := distance_eval le_rfl (by norm_num)
  have hps : GC.calculateSize 1000 = 22 := by
    rw [GC.calculateSize_eval (by norm_num : (0 : ℝ) ≤ 10) (by norm_num)]
    norm_num
  have hos : GC.calculateSize 10 = 13 := by
    rw [GC.calculateSize_eval (by norm_num : (0 : ℝ) ≤ 1) (by norm_num)]
    norm_num
  have hmps : Mock.calculateSize 1000 = 20 := by
    rw [Mock.calcSize_eval (by norm_num : (0 : ℝ) ≤ 10) (by norm_num)]
    norm_num
  have hmos : Mock.calculateSize 10 = 11 := by
    rw [Mock.calcSize_eval (by norm_num : (0 : ℝ) ≤ 1) (by norm_num)]
    norm_num
  have hovG : distance 0 0 0 0 < GC.calculateSize 1000 + GC.calculateSize 10 := by
    rw [hd, hps, hos]
    norm_num
  have heatG : GC.calculateSize 1000 > GC.calculateSize 10 * 1.2 := by
    rw [hps, hos]
    norm_num
  have hovM : distance 0 0 0 0 < Mock.calculateSize 1000 + Mock.calculateSize 10 := by
    rw [hd, hmps, hmos]
    norm_num
  have heatM : Mock.calculateSize 1000 > Mock.calculateSize 10 * 1.2 := by
    rw [hmps, hmos]
    norm_num
  obtain ⟨hGC, hMock⟩ := C1_margin_resolution ⟨1, 0, 0, 1000, 0, 0, 0, true, none, []⟩
    ⟨2, 0, 0, 10, true⟩ ⟨0, 0⟩ (Except.ok ()) (Except.ok none)
  obtain ⟨h1, -, -⟩ := hGC hovG
  obtain ⟨hplayer, hothers⟩ := h1 heatG
  obtain ⟨-, hremoved⟩ := hMock hovM heatM
  have hfl : ((Int.floor ((10 : ℝ) * 0.8) : ℤ) : ℝ) = 8 := by
    rw [show (10 : ℝ) * 0.8 = 8 by norm_num]
    simp
  refine ⟨hovG, heatG, hovM, heatM, ?_, hothers, hremoved⟩
  rw [hplayer]
  dsimp only
  rw [hfl]
  norm_num

/-- C3 counterexample: for mass 900000 the radius is 312 (more than half the
arena height), and one tick of the networked integrator from position
(400, 300) with no direction ends at y = 288 < 312, violating
`radius ≤ y`. -/
theorem C3_counterexample :
    GC.calculateSize 900000 = 312 ∧
    (GC.gameLoopMove ⟨1, 400, 300, 900000, 0, 0, 0, true, none, []⟩).y = 288 ∧
    ¬ GC.calculateSize (⟨1, 400, 300, 900000, 0, 0, 0, true, none, []⟩ : Player).money ≤
        (GC.gameLoopMove ⟨1, 400, 300, 900000, 0, 0, 0, true, none, []⟩).y := by
  have hs : GC.calculateSize 900000 = 312 := by
    rw [GC.calculateSize_eval (by norm_num : (0 : ℝ) ≤ 300) (by norm_num)]
    norm_num
  have hy : (GC.gameLoopMove ⟨1, 400, 300, 900000, 0, 0, 0, true, none, []⟩).y = 288 := by
    simp only [GC.gameLoopMove]
    rw [hs, GC.boundAxis_fst_low_over (by norm_num)
      (by norm_num [GC.CANVAS_HEIGHT])]
    norm_num [GC.CANVAS_HEIGHT]
  refine ⟨hs, hy, ?_⟩
  rw [hy]
  dsimp only
  rw [hs]
  norm_num

/-- C3 (amended): whenever the avatar fits inside the arena (radius at most
300, half the smaller 800×600 dimension), the post-integration position of
either engine copy satisfies `radius ≤ x ≤ 800 - radius` and
`radius ≤ y ≤ 600 - radius`; for larger radii the clamp violates the lower
bound (see the counterexample). -/
theorem C3_boundary_clamp (p : Player) :
    (GC.calculateSize p.money ≤ 300 →
      GC.calculateSize p.money ≤ (GC.gameLoopMove p).x ∧
      (GC.gameLoopMove p).x ≤ GC.CANVAS_WIDTH - GC.calculateSize p.money ∧
      GC.calculateSize p.money ≤ (GC.gameLoopMove p).y ∧
      (GC.gameLoopMove p).y ≤ GC.CANVAS_HEIGHT - GC.calculateSize p.money) ∧
    (Mock.calculateSize p.money ≤ 300 →
      Mock.calculateSize p.money ≤ (Mock.gameLoopMove p).x ∧
      (Mock.gameLoopMove p).x ≤ Mock.CANVAS_WIDTH - Mock.calculateSize p.money ∧
      Mock.calculateSize p.money ≤ (Mock.gameLoopMove p).y ∧
      (Mock.gameLoopMove p).y ≤ Mock.CANVAS_HEIGHT - Mock.calculateSize p.money) := by
  constructor
  · intro h
    have hw : GC.calculateSize p.money ≤ GC.CANVAS_WIDTH - GC.calculateSize p.money := by
      unfold GC.CANVAS_WIDTH
      linarith
    have hh : GC.calculateSize p.money ≤ GC.CANVAS_HEIGHT - GC.calculateSize p.money := by
      unfold GC.CANVAS_HEIGHT
      linarith
    cases hdir : p.direction with
    | none =>
        simp only [GC.gameLoopMove, hdir]
        obtain ⟨hx1, hx2⟩ := GC.boundAxis_bounds p.x 0 hw
        obtain ⟨hy1, hy2⟩ := GC.boundAxis_bounds p.y 0 hh
        exact ⟨hx1, hx2, hy1, hy2⟩
    | some d =>
        simp only [GC.gameLoopMove, hdir]
        obtain ⟨hx1, hx2⟩ := GC.boundAxis_bounds
          (p.x + d.x * GC.speed (GC.calculateSize p.money)) d.x hw
        obtain ⟨hy1, hy2⟩ := GC.boundAxis_bounds
          (p.y + d.y * GC.speed (GC.calculateSize p.money)) d.y hh
        exact ⟨hx1, hx2, hy1, hy2⟩
  · intro h
    have hw : Mock.calculateSize p.money ≤ Mock.CANVAS_WIDTH - Mock.calculateSize p.money := by
      unfold Mock.CANVAS_WIDTH
      linarith
    have hh : Mock.calculateSize p.money ≤ Mock.CANVAS_HEIGHT - Mock.calculateSize p.money := by
      unfold Mock.CANVAS_HEIGHT
      linarith
    simp only [Mock.gameLoopMove]
    refine ⟨le_max_left _ _, max_le hw (min_le_left _ _),
      le_max_left _ _, max_le hh (min_le_left _ _)⟩

/-- C3 witness: a mass-0 player (radius 12 resp. 10) at (5, 700) is clamped
into the arena by both copies. -/
theorem C3_witness :
    GC.calculateSize (⟨1, 5, 700, 0, 0, 0, 0, true, none, []⟩ : Player).money ≤ 300 ∧
    Mock.calculateSize (⟨1, 5, 700, 0, 0, 0, 0, true, none, []⟩ : Player).money ≤ 300 ∧
    (GC.calculateSize (⟨1, 5, 700, 0, 0, 0, 0, true, none, []⟩ : Player).money ≤
        (GC.gameLoopMove ⟨1, 5, 700, 0, 0, 0, 0, true, none, []⟩).x ∧
      (GC.gameLoopMove ⟨1, 5, 700, 0, 0, 0, 0, true, none, []⟩).x ≤
        GC.CANVAS_WIDTH -
          GC.calculateSize (⟨1, 5, 700, 0, 0, 0, 0, true, none, []⟩ : Player).money ∧
      GC.calculateSize (⟨1, 5, 700, 0, 0, 0, 0, true, none, []⟩ : Player).money ≤
        (GC.gameLoopMove ⟨1, 5, 700, 0, 0, 0, 0, true, none, []⟩).y ∧
      (GC.gameLoopMove ⟨1, 5, 700, 0, 0, 0, 0, true, none, []⟩).y ≤
        GC.CANVAS_HEIGHT -
          GC.calculateSize (⟨1, 5, 700, 0, 0, 0, 0, true, none, []⟩ : Player).money) ∧
    (Mock.calculateSize (⟨1, 5, 700, 0, 0, 0, 0, true, none, []⟩ : Player).money ≤
        (Mock.gameLoopMove ⟨1, 5, 700, 0, 0, 0, 0, true, none, []⟩).x ∧
      (Mock.gameLoopMove ⟨1, 5, 700, 0, 0, 0, 0, true, none, []⟩).x ≤
        Mock.CANVAS_WIDTH -
          Mock.calculateSize (⟨1, 5, 700, 0, 0, 0, 0, true, none, []⟩ : Player).money ∧
      Mock.calculateSize (⟨1, 5, 700, 0, 0, 0, 0, true, none, []⟩ : Player).money ≤
        (Mock.gameLoopMove ⟨1, 5, 700, 0, 0, 0, 0, true, none, []⟩).y ∧
      (Mock.gameLoopMove ⟨1, 5, 700, 0, 0, 0, 0, true, none, []⟩).y ≤
        Mock.CANVAS_HEIGHT -
          Mock.calculateSize (⟨1, 5, 700, 0, 0, 0, 0, true, none, []⟩ : Player).money) := by
  have h1 : GC.calculateSize (⟨1, 5, 700, 0, 0, 0, 0, true, none, []⟩ : Player).money ≤ 300 := by
    dsimp only
    rw [GC.calculateSize_eval (le_refl (0 : ℝ)) (by norm_num)]
    norm_num
  have h2 : Mock.calculateSize (⟨1, 5, 700, 0, 0, 0, 0, true, none, []⟩ : Player).money ≤ 300 := by
    dsimp only
    rw [Mock.calcSize_eval (le_refl (0 : ℝ)) (by norm_num)]
    norm_num
  exact ⟨h1, h2, (C3_boundary_clamp _).1 h1, (C3_boundary_clamp _).2 h2⟩

/-- C6 counterexample: in the networked copy a food pellet consumed on one
tick stays in the working set (`gameState` is returned unchanged), is
distance-tested again on the next tick, is consumed again, and its value is
awarded twice (money 0 → 5 → 10). -/
theorem C6_counterexample :
    (GC.checkCollisions ⟨1, 0, 0, 0, 0, 0, 0, true, none, []⟩
        ⟨[⟨7, 3, 4, 5⟩], [], [], ⟨0, 0⟩⟩
        (Except.ok ()) (Except.ok none)).consumedFoodIds = [7] ∧
    (GC.checkCollisions ⟨1, 0, 0, 0, 0, 0, 0, true, none, []⟩
        ⟨[⟨7, 3, 4, 5⟩], [], [], ⟨0, 0⟩⟩
        (Except.ok ()) (Except.ok none)).gameState.food = [⟨7, 3, 4, 5⟩] ∧
    (GC.checkCollisions
        (GC.checkCollisions ⟨1, 0, 0, 0, 0, 0, 0, true, none, []⟩
          ⟨[⟨7, 3, 4, 5⟩], [], [], ⟨0, 0⟩⟩
          (Except.ok ()) (Except.ok none)).player
        (GC.checkCollisions ⟨1, 0, 0, 0, 0, 0, 0, true, none, []⟩
          ⟨[⟨7, 3, 4, 5⟩], [], [], ⟨0, 0⟩⟩
          (Except.ok ()) (Except.ok none)).gameState
        (Except.ok ()) (Except.ok none)).consumedFoodIds = [7] ∧
    (GC.checkCollisions
        (GC.checkCollisions ⟨1, 0, 0, 0, 0, 0, 0, true, none, []⟩
          ⟨[⟨7, 3, 4, 5⟩], [], [], ⟨0, 0⟩⟩
          (Except.ok ()) (Except.ok none)).player
        (GC.checkCollisions ⟨1, 0, 0, 0, 0, 0, 0, true, none, []⟩
          ⟨[⟨7, 3, 4, 5⟩], [], [], ⟨0, 0⟩⟩
          (Except.ok ()) (Except.ok none)).gameState
        (Except.ok ()) (Except.ok none)).player.money = 10 := by
  have hps : GC.calculateSize 0 = 12 := by
    rw [GC.calculateSize_eval (le_refl (0 : ℝ)) (by norm_num)]
    norm_num
  have hd1 : distance 0 0 3 4 = 5 := distance_eval (by norm_num) (by norm_num)
  have hhit0 : distance 0 0 3 4 < GC.calculateSize 0 + GC.FOOD_SIZE := by
    rw [hd1, hps]
    norm_num [GC.FOOD_SIZE]
  obtain ⟨hA, hB, -, hD⟩ := GC.checkCollisions_fields
    ⟨1, 0, 0, 0, 0, 0, 0, true, none, []⟩ ⟨[⟨7, 3, 4, 5⟩], [], [], ⟨0, 0⟩⟩
    (Except.ok ()) (Except.ok none)
  have hplayer1 : (GC.checkCollisions ⟨1, 0, 0, 0, 0, 0, 0, true, none, []⟩
      ⟨[⟨7, 3, 4, 5⟩], [], [], ⟨0, 0⟩⟩
      (Except.ok ()) (Except.ok none)).player =
      ⟨1, 0, 0, 5, 5, 5, 0, true, none, []⟩ := by
    rw [hD]
    unfold GC.foodGain GC.powerUpGain GC.consumedPower GC.hitFood
    dsimp only
    simp only [List.filter_nil, List.map_nil, List.sum_nil, List.filter_cons,
      List.filter_nil, hhit0, decide_eq_true_eq, if_pos hhit0]
    simp [GC.applyPowerUpAck, GC.applyPoints, Player.mk.injEq]
  have hgs1 : (GC.checkCollisions ⟨1, 0, 0, 0, 0, 0, 0, true, none, []⟩
      ⟨[⟨7, 3, 4, 5⟩], [], [], ⟨0, 0⟩⟩
      (Except.ok ()) (Except.ok none)).gameState =
      ⟨[⟨7, 3, 4, 5⟩], [], [], ⟨0, 0⟩⟩ := hA
  have hids1 : (GC.checkCollisions ⟨1, 0, 0, 0, 0, 0, 0, true, none, []⟩
      ⟨[⟨7, 3, 4, 5⟩], [], [], ⟨0, 0⟩⟩
      (Except.ok ()) (Except.ok none)).consumedFoodIds = [7] := by
    rw [hB]
    unfold GC.consumedFood GC.hitFood
    dsimp only
    simp [hhit0]
  have hhit2 : distance 0 0 3 4 < GC.calculateSize 5 + GC.FOOD_SIZE := by
    have h12 : (12 : ℝ) ≤ GC.calculateSize 5 := GC.calculateSize_ge 5
    rw [hd1]
    unfold GC.FOOD_SIZE
    linarith
  obtain ⟨-, hB2, -, hD2⟩ := GC.checkCollisions_fields
    ⟨1, 0, 0, 5, 5, 5, 0, true, none, []⟩ ⟨[⟨7, 3, 4, 5⟩], [], [], ⟨0, 0⟩⟩
    (Except.ok ()) (Except.ok none)
  have hids2 : (GC.checkCollisions ⟨1, 0, 0, 5, 5, 5, 0, true, none, []⟩
      ⟨[⟨7, 3, 4, 5⟩], [], [], ⟨0, 0⟩⟩
      (Except.ok ()) (Except.ok none)).consumedFoodIds = [7] := by
    rw [hB2]
    unfold GC.consumedFood GC.hitFood
    dsimp only
    simp [hhit2]
  have hmoney2 : (GC.checkCollisions ⟨1, 0, 0, 5, 5, 5, 0, true, none, []⟩
      ⟨[⟨7, 3, 4, 5⟩], [], [], ⟨0, 0⟩⟩
      (Except.ok ()) (Except.ok none)).player.money = 10 := by
    rw [hD2, GC.resolveOther_foldl_money, GC.applyPoints_money_ite,
      GC.applyPowerUpAck_money]
    unfold GC.foodGain GC.powerUpGain GC.pvpGain GC.hitFood GC.hitPowerUp
    dsimp only
    simp [hhit2]
    norm_num
  exact ⟨hids1, by rw [hgs1], by rw [hplayer1, hgs1]; exact hids2,
    by rw [hplayer1, hgs1]; exact hmoney2⟩

/-- C6 (amended): the networked copy's collision pass never removes entities
from its working sets — the returned `gameState` equals its input, so a
locally consumed entity is still rendered and distance-tested on later ticks
until a snapshot pull replaces the sets; the mock copy removes a consumed
food pellet from the working set immediately. -/
theorem C6_consumed_persistence (p : Player) (gs : GameState)
    (fa : Except Unit Unit) (pa : Except Unit (Option (List PowerUp)))
    (food : List Food) (powerUps : List PowerUp) (others : List OtherPlayer)
    (f : Food) (_hf : f ∈ food)
    (hhit : distance p.x p.y f.x f.y < Mock.calculateSize p.money + Mock.FOOD_SIZE) :
    (GC.checkCollisions p gs fa pa).gameState = gs ∧
    f ∉ (Mock.checkCollisions p food powerUps others).2.1 := by
  refine ⟨(GC.checkCollisions_fields p gs fa pa).1, ?_⟩
  intro hmem
  have hk : (Mock.checkCollisions p food powerUps others).2.1 =
      food.filter (fun g => !Mock.hitFood (Mock.calculateSize p.money) p.x p.y g) := by
    simp only [Mock.checkCollisions, Mock.food_foldl_kept]
    simp
  rw [hk] at hmem
  have hnot := (List.mem_filter.mp hmem).2
  unfold Mock.hitFood at hnot
  simp only [Bool.not_eq_true', decide_eq_false_iff_not] at hnot
  exact hnot hhit

/-- C6 witness: a mass-0 player at the origin and a value-5 pellet at
distance 5 — consumed by the mock pass and removed from its working set,
while the networked pass leaves the working state untouched. -/
theorem C6_witness :
    (⟨7, 3, 4, 5⟩ : Food) ∈ ([⟨7, 3, 4, 5⟩] : List Food) ∧
    distance 0 0 3 4 < Mock.calculateSize 0 + Mock.FOOD_SIZE ∧
    (GC.checkCollisions ⟨1, 0, 0, 0, 0, 0, 0, true, none, []⟩
        ⟨[⟨7, 3, 4, 5⟩], [], [], ⟨0, 0⟩⟩ (Except.ok ()) (Except.ok none)).gameState =
      ⟨[⟨7, 3, 4, 5⟩], [], [], ⟨0, 0⟩⟩ ∧
    (⟨7, 3, 4, 5⟩ : Food) ∉
      (Mock.checkCollisions ⟨1, 0, 0, 0, 0, 0, 0, true, none, []⟩
        [⟨7, 3, 4, 5⟩] [] []).2.1 := by
  have hmem : (⟨7, 3, 4, 5⟩ : Food) ∈ ([⟨7, 3, 4, 5⟩] : List Food) :=
    List.mem_singleton.mpr rfl
  have hhit : distance 0 0 3 4 < Mock.calculateSize 0 + Mock.FOOD_SIZE := by
    rw [distance_eval (by norm_num) (by norm_num : (5 : ℝ) * 5 = _),
      Mock.calcSize_eval (le_refl (0 : ℝ)) (by norm_num)]
    norm_num [Mock.FOOD_SIZE]
  obtain ⟨h1, h2⟩ := C6_consumed_persistence ⟨1, 0, 0, 0, 0, 0, 0, true, none, []⟩
    ⟨[⟨7, 3, 4, 5⟩], [], [], ⟨0, 0⟩⟩ (Except.ok ()) (Except.ok none)
    [⟨7, 3, 4, 5⟩] [] [] ⟨7, 3, 4, 5⟩ hmem hhit
  exact ⟨hmem, hhit, h1, h2⟩

/-- C7 counterexample: a pulled snapshot whose player list reports the local
player (id 1) as dead leaves the local alive flag true when applied — the
snapshot application ignores the local player's entry entirely, so the
server snapshot does not win over local prediction for alive/dead status. -/
theorem C7_counterexample :
    ((⟨some [], some [⟨1, 0, 0, 0, false⟩], some [], none⟩ :
        ServerState).players.getD []).any
      (fun q => q.playerId == 1 && !q.isAlive) = true ∧
    (GC.pullUpdate ⟨1, 0, 0, 0, 0, 0, 0, true, none, []⟩ ⟨[], [], [], ⟨0, 0⟩⟩
        (Except.ok ⟨some [], some [⟨1, 0, 0, 0, false⟩], some [], none⟩)).1.isAlive
      = true :=
  ⟨rfl, rfl⟩

/-- C7 (amended): applying a pulled snapshot never changes the local
player's alive flag (the local player's entry is filtered out and ignored);
within a tick the alive flag can become false only through the local
collision resolver — only when the player was already dead or some remote
player in the working set overlaps it and exceeds it by the 1.2 size
margin. -/
theorem C7_local_death_only (p : Player) (gs : GameState) (sv : ServerState)
    (fa : Except Unit Unit) (pa : Except Unit (Option (List PowerUp))) :
    (GC.pullUpdate p gs (Except.ok sv)).1.isAlive = p.isAlive ∧
    ((GC.checkCollisions p gs fa pa).player.isAlive = false →
      p.isAlive = false ∨ ∃ o ∈ gs.otherPlayers,
        distance p.x p.y o.x o.y <
          GC.calculateSize p.money + GC.calculateSize o.money ∧
        GC.calculateSize o.money > GC.calculateSize p.money * 1.2) := by
  refine ⟨rfl, fun h => ?_⟩
  rw [(GC.checkCollisions_fields p gs fa pa).2.2.2, GC.resolveOther_foldl_isAlive,
    GC.applyPoints_isAlive, GC.applyPowerUpAck_isAlive] at h
  cases ha : p.isAlive with
  | false => exact Or.inl rfl
  | true =>
      right
      rw [ha, Bool.true_and] at h
      have h3 : gs.otherPlayers.any
          (GC.eatenByOther (GC.calculateSize p.money) p.x p.y) = true := by
        simpa using h
      obtain ⟨o, ho, hpred⟩ := List.any_eq_true.mp h3
      unfold GC.eatenByOther GC.hitOther GC.eatsOther at hpred
      simp only [Bool.and_eq_true, decide_eq_true_eq] at hpred
      exact ⟨o, ho, hpred.1.1, hpred.2⟩

/-- C7 witness: a mass-0 local player overlapped by a mass-160 remote player
(radii 12 vs 16, ratio above 1.2) — the collision pass marks it dead, and
the theorem locates the responsible remote player. -/
theorem C7_witness :
    (GC.checkCollisions ⟨1, 0, 0, 0, 0, 0, 0, true, none, []⟩
        ⟨[], [], [⟨2, 0, 0, 160, true⟩], ⟨0, 0⟩⟩
        (Except.ok ()) (Except.ok none)).player.isAlive = false ∧
    ((⟨1, 0, 0, 0, 0, 0, 0, true, none, []⟩ : Player).isAlive = false ∨
      ∃ o ∈ ([⟨2, 0, 0, 160, true⟩] : List OtherPlayer),
        distance 0 0 o.x o.y < GC.calculateSize 0 + GC.calculateSize o.money ∧
        GC.calculateSize o.money > GC.calculateSize 0 * 1.2) := by
  have hps : GC.calculateSize 0 = 12 := by
    rw [GC.calculateSize_eval (le_refl (0 : ℝ)) (by norm_num)]
    norm_num
  have hos : GC.calculateSize 160 = 16 := by
    rw [GC.calculateSize_eval (by norm_num : (0 : ℝ) ≤ 4) (by norm_num)]
    norm_num
  have hd : distance 0 0 0 0 = 0 := distance_eval le_rfl (by norm_num)
  have hdead : (GC.checkCollisions ⟨1, 0, 0, 0, 0, 0, 0, true, none, []⟩
      ⟨[], [], [⟨2, 0, 0, 160, true⟩], ⟨0, 0⟩⟩
      (Except.ok ()) (Except.ok none)).player.isAlive = false := by
    obtain ⟨-, -, -, h4⟩ := GC.checkCollisions_fields
      ⟨1, 0, 0, 0, 0, 0, 0, true, none, []⟩
      ⟨[], [], [⟨2, 0, 0, 160, true⟩], ⟨0, 0⟩⟩ (Except.ok ()) (Except.ok none)
    rw [h4, GC.resolveOther_foldl_isAlive, GC.applyPoints_isAlive,
      GC.applyPowerUpAck_isAlive]
    dsimp only
    rw [hps]
    have c1 : distance 0 0 0 0 < 12 + GC.calculateSize 160 := by
      rw [hd, hos]
      norm_num
    have c2 : ¬ (12 : ℝ) > GC.calculateSize 160 * 1.2 := by
      rw [hos]
      norm_num
    have c3 : GC.calculateSize 160 > (12 : ℝ) * 1.2 := by
      rw [hos]
      norm_num
    simp [GC.eatenByOther, GC.hitOther, GC.eatsOther, c1, c2, c3]
  refine ⟨hdead, ?_⟩
  have h := (C7_local_death_only ⟨1, 0, 0, 0, 0, 0, 0, true, none, []⟩
    ⟨[], [], [⟨2, 0, 0, 160, true⟩], ⟨0, 0⟩⟩ ⟨some [], some [], some [], none⟩
    (Except.ok ()) (Except.ok none)).2 hdead
  simpa [hps] using h

/-- C10: a tick that starts with the local player's alive flag false is a
no-op on game state — the player record and the food/power-up/remote-player
sets are unchanged, no position push is issued and both consumption
notification id lists are empty. -/
theorem C10_dead_tick_noop (p : Player) (gs : GameState) (now lp : ℝ)
    (posAck foodAck : Except Unit Unit)
    (puAck : Except Unit (Option (List PowerUp)))
    (h : p.isAlive = false) :
    GC.tick p gs now lp posAck foodAck puAck = ⟨p, gs, false, [], []⟩ := by
  unfold GC.tick
  rw [h]
  rfl

/-- C10 witness: a concrete dead player's tick changes nothing. -/
theorem C10_witness :
    (⟨1, 0, 0, 0, 0, 0, 0, false, none, []⟩ : Player).isAlive = false ∧
    GC.tick ⟨1, 0, 0, 0, 0, 0, 0, false, none, []⟩ ⟨[], [], [], ⟨0, 0⟩⟩ 0 0
        (Except.ok ()) (Except.ok ()) (Except.ok none) =
      ⟨⟨1, 0, 0, 0, 0, 0, 0, false, none, []⟩, ⟨[], [], [], ⟨0, 0⟩⟩, false, [], []⟩ :=
  ⟨rfl, C10_dead_tick_noop _ _ _ _ _ _ _ rfl⟩

end Agar
